import Mathlib

/-!
Formal model of the krator operator runtime: the per-controller dispatcher
(`OperatorRuntime::dispatch`, `resync`, `handle_event` from
`src/krator/src/runtime.rs`), the per-object supervisor task
(`run_object_task`), the controller builder (`src/krator/src/manager/controller.rs`),
and the statically-typed state-machine transitions (`Transition` / `TransitionTo`).

Channels, spawned tasks and API calls are modelled by an explicit action trace:
each runtime operation returns its successor state together with the list of
externally visible actions it performed, in order.  Channel-send outcomes and
object-state initialization outcomes are supplied by an environment `Env`
(they depend on the peer task / the operator implementation, not on the
dispatcher itself).
-/

namespace Krator

/-- Object identity, from `object.rs` (`ObjectKey::new(namespace, name)`), as used
by `runtime.rs`: an optional namespace and a name.  `nspace` renders the Rust
field `namespace` (a reserved word in Lean). -/
structure ObjectKey where
  nspace : Option String
  name : String
deriving DecidableEq

/-- A watched API object (`O::Manifest` in `runtime.rs`).  The dispatcher only ever
inspects its name and namespace (via `ObjectKey: From<&R>`); `payload` stands for
the rest of the manifest so that distinct manifests with the same key exist. -/
structure KObject where
  nspace : Option String
  name : String
  payload : Nat
deriving DecidableEq

/-- `impl From<&R> for ObjectKey`: the key of an object is its (namespace, name). -/
def objectKey (o : KObject) : ObjectKey :=
  ⟨o.nspace, o.name⟩

/-- `enum ObjectEvent<R>` from `runtime.rs`: `Applied(R)` or
`Deleted { name, namespace }` (the latter carries exactly an object key). -/
inductive ObjectEvent where
  | applied (o : KObject)
  | deleted (key : ObjectKey)
deriving DecidableEq

/-- `kube_runtime::watcher::Event` as consumed by `handle_event`:
`Applied(obj)`, `Deleted(obj)`, `Restarted(objs)`. -/
inductive WatchEvent where
  | applied (o : KObject)
  | deleted (o : KObject)
  | restarted (objs : List KObject)
deriving DecidableEq

/-- Externally visible actions of the dispatcher, in program order.
Senders are identified by the `Nat` id that was current when their channel
was created. -/
inductive Action where
  /-- A call to `dispatch` with event `e` began (used by `resync`, which calls
  `dispatch` once per event and stops at the first error). -/
  | dispatched (e : ObjectEvent)
  /-- `sender.send(Applied(o))` succeeded. -/
  | sendApplied (s : Nat) (o : KObject)
  /-- `sender.send(Applied(o))` failed; the error is logged and swallowed
  (`Error while sending event. Will retry on next event.`). -/
  | sendAppliedFailed (s : Nat) (o : KObject)
  /-- `start_object`: a fresh per-object channel of the given capacity was
  created and the two per-object tasks were spawned. -/
  | startObject (k : ObjectKey) (s : Nat) (capacity : Nat)
  /-- The new sender was inserted into the handler table. -/
  | insertHandler (k : ObjectKey) (s : Nat)
  /-- `initialize_object_state` failed inside `start_object`; the error
  propagates out of `dispatch`. -/
  | initError (k : ObjectKey)
  /-- `self.handlers.remove(&key)` removed an entry. -/
  | removeHandler (k : ObjectKey)
  /-- The final `Deleted` event was sent over the removed sender. -/
  | sendDeleted (s : Nat) (k : ObjectKey)
  /-- Shutdown gate: a top-level `Applied` event was dropped with a warning. -/
  | dropApplied (k : ObjectKey)
deriving DecidableEq

/-- The dispatcher state: the `handlers: HashMap<ObjectKey, Sender<...>>` table
(modelled as an association list with distinct keys) and a counter supplying
fresh sender identities. -/
structure RtState where
  handlers : List (ObjectKey × Nat)
  nextId : Nat
deriving DecidableEq

/-- Environment oracles: whether a given sender's channel accepts a send
(the receiver task is alive and the buffer admits it), and whether
`Operator::initialize_object_state` succeeds for a given object. -/
structure Env where
  senderOpen : Nat → Bool
  initOk : KObject → Bool

/-- `HashMap::get` on the handler table. -/
def lookupH : List (ObjectKey × Nat) → ObjectKey → Option Nat
  | [], _ => none
  | p :: rest, k => if p.1 = k then some p.2 else lookupH rest k

/-- `HashMap::remove` on the handler table. -/
def eraseH (h : List (ObjectKey × Nat)) (k : ObjectKey) : List (ObjectKey × Nat) :=
  h.filter (fun p => p.1 ≠ k)

/-- Result of one `dispatch` call: successor state, action trace, and whether the
call returned `Ok` (`ok = false` renders an `Err` propagated by `?`). -/
structure DispatchOut where
  state : RtState
  trace : List Action
  ok : Bool
deriving DecidableEq

/-- `runtime.rs` line 165: `tokio::sync::mpsc::channel::<ObjectEvent<O::Manifest>>(128)`.
The per-object event channel capacity is the literal `128`. -/
def perObjectChannelCapacity : Nat := 128

/-- `OperatorRuntime::start_object`: create the per-object channel (capacity
`perObjectChannelCapacity`), run `initialize_object_state` (an error propagates
with `?`, nothing is spawned), then spawn the fan-in task and
`run_object_task` and return the sender. -/
def start_object (env : Env) (nextId : Nat) (o : KObject) : Except Unit (Nat × List Action) :=
  if env.initOk o then
    Except.ok (nextId, [Action.startObject (objectKey o) nextId perObjectChannelCapacity])
  else
    Except.error ()

/-- `OperatorRuntime::dispatch`.
`Applied`: if a handler exists, send to it (a send error is only logged);
otherwise `start_object` and insert the new sender (an initialization error
propagates before the insert).
`Deleted`: remove the sender from the table first, then send the final
`Deleted` event over it when one was present (a send error propagates with `?`,
after the removal). -/
def dispatch (env : Env) (st : RtState) : ObjectEvent → DispatchOut
  | ObjectEvent.applied o =>
    let k := objectKey o
    match lookupH st.handlers k with
    | some s =>
      if env.senderOpen s then
        ⟨st, [Action.sendApplied s o], true⟩
      else
        ⟨st, [Action.sendAppliedFailed s o], true⟩
    | none =>
      match start_object env st.nextId o with
      | Except.ok (s, tr) =>
        ⟨⟨(k, s) :: st.handlers, st.nextId + 1⟩, tr ++ [Action.insertHandler k s], true⟩
      | Except.error _ => ⟨st, [Action.initError k], false⟩
  | ObjectEvent.deleted k =>
    match lookupH st.handlers k with
    | some s =>
      ⟨⟨eraseH st.handlers k, st.nextId⟩,
        [Action.removeHandler k, Action.sendDeleted s k], env.senderOpen s⟩
    | none => ⟨st, [], true⟩

/-- Sequential dispatch of a list of events, each awaited and propagated with
`?`: processing stops at the first `dispatch` returning an error (mutations
already performed stick).  Used by `resync`. -/
def dispatchSeq (env : Env) (st : RtState) : List ObjectEvent → DispatchOut
  | [] => ⟨st, [], true⟩
  | e :: rest =>
    let r := dispatch env st e
    if r.ok then
      let r2 := dispatchSeq env r.state rest
      ⟨r2.state, (Action.dispatched e :: r.trace) ++ r2.trace, r2.ok⟩
    else
      ⟨r.state, Action.dispatched e :: r.trace, false⟩

/-- The keys of the incoming object list (`current_objects` in `resync`). -/
def currentKeys (objects : List KObject) : List ObjectKey :=
  objects.map objectKey

/-- `objects_in_state.difference(&current_objects)`: keys tracked in the handler
table but absent from the incoming list. -/
def staleKeys (st : RtState) (objects : List KObject) : List ObjectKey :=
  (st.handlers.map Prod.fst).filter (fun k => ¬ k ∈ currentKeys objects)

/-- `OperatorRuntime::resync`: dispatch a synthetic `Deleted` for every tracked
key missing from the incoming list, then an `Applied` for every incoming
object; each dispatch is awaited with `?`. -/
def resync (env : Env) (st : RtState) (objects : List KObject) : DispatchOut :=
  dispatchSeq env st
    ((staleKeys st objects).map ObjectEvent.deleted ++ objects.map ObjectEvent.applied)

/-- `OperatorRuntime::handle_event`.  The shutdown gate
(`matches!(event, Event::Applied(_)) && signal.load(..)`) drops only top-level
`Applied` events; `Deleted` and `Restarted` never consult the signal.  Errors
from `dispatch` / `resync` are logged and do not escape. -/
def handle_event (env : Env) (signal : Option Bool) (st : RtState) :
    WatchEvent → RtState × List Action
  | WatchEvent.applied o =>
    if signal = some true then
      (st, [Action.dropApplied (objectKey o)])
    else
      let r := dispatch env st (ObjectEvent.applied o)
      (r.state, r.trace)
  | WatchEvent.deleted o =>
    let r := dispatch env st (ObjectEvent.deleted (objectKey o))
    (r.state, r.trace)
  | WatchEvent.restarted objs =>
    let r := resync env st objs
    (r.state, r.trace)

/-- Projection of a trace to the events whose `dispatch` call actually began. -/
def markerOf : Action → Option ObjectEvent
  | Action.dispatched e => some e
  | _ => none

/-- The sequence of events dispatched during a trace, in order. -/
def markers (tr : List Action) : List ObjectEvent :=
  tr.filterMap markerOf

/-- No `Deleted` event occurs in the list. -/
def noDeletedEvt (l : List ObjectEvent) : Bool :=
  l.all (fun e => match e with | ObjectEvent.deleted _ => false | _ => true)

/-- Every `Deleted` event in the list precedes every `Applied` event. -/
def delsBeforeApps : List ObjectEvent → Bool
  | [] => true
  | ObjectEvent.applied _ :: rest => noDeletedEvt rest
  | ObjectEvent.deleted _ :: rest => delsBeforeApps rest

/-- Formalization of the resync contract: exactly one synthetic `Deleted` is
dispatched for each tracked-but-absent key, exactly one `Applied` is dispatched
for each incoming object, and every `Deleted` dispatch precedes every `Applied`
dispatch. -/
def resyncContract (env : Env) (st : RtState) (objects : List KObject) : Bool :=
  let evs := markers (resync env st objects).trace
  (staleKeys st objects).all (fun k => evs.count (ObjectEvent.deleted k) == 1) &&
  objects.all (fun o => evs.count (ObjectEvent.applied o) == 1) &&
  delsBeforeApps evs

/-- Every `startObject` action in the trace created its channel with capacity
`perObjectChannelCapacity` (that is, 128). -/
def startCapacityIs128 (a : Action) : Bool :=
  match a with
  | Action.startObject _ _ cap => cap == perObjectChannelCapacity
  | _ => true

/-- Outcome of the supervisor's API delete request (`api_client.delete`):
success, HTTP 404 (treated as already deleted), or another error (logged). -/
inductive DeleteRes where
  | ok
  | notFound404
  | otherErr
deriving DecidableEq

/-- Steps of the per-object supervisor `run_object_task` in `runtime.rs`,
in the order they are performed. -/
inductive TStep where
  /-- `operator.registration_hook(manifest)` was invoked. -/
  | registrationHook
  /-- `run_to_completion` from `O::InitialState::default()`; `completed = false`
  means the future was cancelled by the `tokio::select!` deletion race. -/
  | runInitial (completed : Bool)
  /-- `run_to_completion` from `O::DeletedState::default()`, run to completion. -/
  | runDeleted
  /-- `wait_event(deleted)`: block until the deleted flag is true. -/
  | waitDeleted
  /-- `shared.write().await`: exclusive lock on the operator's shared state. -/
  | acquireSharedWrite
  /-- `object_state.async_drop(&mut state_writer)`. -/
  | asyncDrop
  /-- The shared-state write guard was dropped. -/
  | releaseSharedWrite
  /-- `operator.deregistration_hook(manifest)`; an error is logged only. -/
  | deregistrationHook (ok : Bool)
  /-- `api_client.delete(&name, &dp)` with
  `DeleteParams { grace_period_seconds: Some(g), .. }`. -/
  | apiDelete (graceSeconds : Nat) (res : DeleteRes)
  /-- `wait_event(deleted_event)`: block until the deleted-confirmed flag. -/
  | waitDeletedConfirmed
deriving DecidableEq

/-- `run_object_task` from `runtime.rs`, as the trace of steps it performs.
`regOk` is the result of `registration_hook` (on error the task returns at
once).  `deletedDuringRun` is the outcome of the `tokio::select!` race between
`run_to_completion(InitialState)` and `wait_event(deleted)`: `true` means the
deleted flag fired while the initial run was still pending (the run is
cancelled and `DeletedState` is run to completion), `false` means the initial
run completed first.  `deregOk` is the result of `deregistration_hook`,
`deleteRes` the outcome of the API delete. -/
def run_object_task (regOk deletedDuringRun deregOk : Bool)
    (deleteRes : DeleteRes) : List TStep :=
  TStep.registrationHook ::
    if regOk = false then []
    else
      (if deletedDuringRun then
        [TStep.runInitial false, TStep.runDeleted]
      else
        [TStep.runInitial true])
      ++ [TStep.waitDeleted, TStep.acquireSharedWrite, TStep.asyncDrop,
          TStep.releaseSharedWrite, TStep.deregistrationHook deregOk,
          TStep.apiDelete 0 deleteRes, TStep.waitDeletedConfirmed]

/-- Modelled from the spec: the state-machine module (`state.rs`, providing
`Transition`, `TransitionTo`, `StateHolder` and `Transition::next`) is not
among the provided sources; only its callers (`runtime.rs`) and the
compile-fail tests under `tests/ui/state/` reference it.  Per the spec, "the
`Next` variant is constructible only when the edge `(current, next_state)` is
declared" via the marker relation `TransitionTo`, and `StateHolder`'s `state`
field is private, so `Transition::next` is the only way to build `Next`.
States are the elements of a type `σ`, the declared edge set is a relation
`edges : σ → σ → Prop` (the `TransitionTo` marker impls), and the
`S: TransitionTo<S2>` bound on `Transition::next` is the proof obligation
`declared : edges cur state` carried by the holder. -/
structure StateHolder (σ : Type) (edges : σ → σ → Prop) (cur : σ) where
  state : σ
  declared : edges cur state

/-- Modelled from the spec: `Transition<S>` with variants
`Next(StateHolder<S>)` and `Complete(Result)` (`ok = true` renders `Ok(())`). -/
inductive Transition (σ : Type) (edges : σ → σ → Prop) (cur : σ) where
  | Next (holder : StateHolder σ edges cur)
  | Complete (ok : Bool)

/-- Modelled from the spec: `Transition::next(self, next_state)`, whose
`CurrentState: TransitionTo<NextState>` bound is the explicit edge proof `h`. -/
def Transition.next {σ : Type} {edges : σ → σ → Prop} (cur nxt : σ)
    (h : edges cur nxt) : Transition σ edges cur :=
  Transition.Next ⟨nxt, h⟩

/-- The state the engine moves to when it takes the given transition
(`none` for `Complete`). -/
def Transition.successor {σ : Type} {edges : σ → σ → Prop} {cur : σ} :
    Transition σ edges cur → Option σ
  | Transition.Next holder => some holder.state
  | Transition.Complete _ => none

/-- Modelled from the spec: the chain of states visited by the execution loop
of `run_to_completion`, starting at `s`, where `nextFn` is the user's
`State::next` (fuel `n` bounds the number of steps, since user state machines
need not terminate). -/
def engineChain (σ : Type) (edges : σ → σ → Prop)
    (nextFn : (s : σ) → Transition σ edges s) : Nat → σ → List σ
  | 0, s => [s]
  | n + 1, s =>
    s ::
      (match nextFn s with
      | Transition.Next holder => engineChain σ edges nextFn n holder.state
      | Transition.Complete _ => [])

/-- Watcher configuration from `manager/watch.rs`: the (group, version, kind)
tuple, an optional namespace, and the watcher config (opaque here). -/
structure Watch where
  gvk : String × String × String
  nspace : Option String
deriving DecidableEq

/-- `ControllerBuilder` from `manager/controller.rs` (the `controller`
singleton, list params and cfg-gated webhooks are opaque to the claims and
omitted).  `buffer` is "the buffer length for Tokio channels used to
communicate between watcher tasks and runtime tasks". -/
structure ControllerBuilder where
  watches : List Watch
  owns : List Watch
  nspace : Option String
  buffer : Nat
deriving DecidableEq

/-- `ControllerBuilder::new(operator)`: empty watch lists, cluster scope,
`buffer: 32`. -/
def ControllerBuilder.new : ControllerBuilder :=
  ⟨[], [], none, 32⟩

/-- `ControllerBuilder::with_buffer(buffer)`. -/
def ControllerBuilder.with_buffer (b : ControllerBuilder) (n : Nat) : ControllerBuilder :=
  ⟨b.watches, b.owns, b.nspace, n⟩

/-! ### Helper lemmas -/

theorem lookupH_eraseH_self (h : List (ObjectKey × Nat)) (k : ObjectKey) :
    lookupH (eraseH h k) k = none := by
  induction h with
  | nil => rfl
  | cons p rest ih =>
    by_cases hp : p.1 = k
    · simpa [eraseH, List.filter_cons, hp] using ih
    · simpa [eraseH, List.filter_cons, hp, lookupH] using ih

theorem dispatch_ok (env : Env) (hs : ∀ s, env.senderOpen s = true)
    (hi : ∀ o, env.initOk o = true) (st : RtState) (e : ObjectEvent) :
    (dispatch env st e).ok = true := by
  cases e with
  | applied o =>
    cases hl : lookupH st.handlers (objectKey o) with
    | some s => by_cases ho : env.senderOpen s <;> simp [dispatch, hl, ho]
    | none => simp [dispatch, hl, start_object, hi o]
  | deleted k =>
    cases hl : lookupH st.handlers k with
    | some s => simp [dispatch, hl, hs s]
    | none => simp [dispatch, hl]

theorem dispatch_markers (env : Env) (st : RtState) (e : ObjectEvent) :
    markers (dispatch env st e).trace = [] := by
  cases e with
  | applied o =>
    cases hl : lookupH st.handlers (objectKey o) with
    | some s =>
      by_cases ho : env.senderOpen s <;> simp [dispatch, hl, ho, markers, markerOf]
    | none =>
      by_cases hio : env.initOk o <;>
        simp [dispatch, hl, start_object, hio, markers, markerOf]
  | deleted k =>
    cases hl : lookupH st.handlers k with
    | some s => simp [dispatch, hl, markers, markerOf]
    | none => simp [dispatch, hl, markers]

theorem dispatchSeq_markers (env : Env) (hs : ∀ s, env.senderOpen s = true)
    (hi : ∀ o, env.initOk o = true) (es : List ObjectEvent) (st : RtState) :
    markers (dispatchSeq env st es).trace = es := by
  induction es generalizing st with
  | nil => simp [dispatchSeq, markers]
  | cons e rest ih =>
    have hok : (dispatch env st e).ok = true := dispatch_ok env hs hi st e
    have h1 := dispatch_markers env st e
    have h2 := ih (dispatch env st e).state
    simp only [markers] at h1 h2 ⊢
    simp [dispatchSeq, hok, List.filterMap_append, markerOf, h1, h2]

theorem resync_markers (env : Env) (hs : ∀ s, env.senderOpen s = true)
    (hi : ∀ o, env.initOk o = true) (st : RtState) (objects : List KObject) :
    markers (resync env st objects).trace
      = (staleKeys st objects).map ObjectEvent.deleted
          ++ objects.map ObjectEvent.applied :=
  dispatchSeq_markers env hs hi _ st

theorem noDeletedEvt_map_applied (objects : List KObject) :
    noDeletedEvt (objects.map ObjectEvent.applied) = true := by
  simp [noDeletedEvt]

theorem delsBeforeApps_map (stale : List ObjectKey) (objects : List KObject) :
    delsBeforeApps
      (stale.map ObjectEvent.deleted ++ objects.map ObjectEvent.applied) = true := by
  induction stale with
  | nil =>
    cases objects with
    | nil => rfl
    | cons o rest => simpa [delsBeforeApps] using noDeletedEvt_map_applied rest
  | cons k rest ih => simpa [delsBeforeApps] using ih

/-! ### Claim theorems -/

/-- C1: a `Transition::Next` value carrying `s2` as the successor of `cur` can
only exist when the edge `(cur, s2)` is declared in the `TransitionTo` marker
relation (`edges`), so no undeclared-edge transition value is ever
constructed; consequently the state-machine engine (`engineChain`) only ever
moves along declared edges: every consecutive pair of states it visits is a
declared edge. -/
theorem c1_next_requires_declared_edge :
    (∀ (σ : Type) (edges : σ → σ → Prop) (cur s2 : σ)
        (t : Transition σ edges cur),
      Transition.successor t = some s2 → edges cur s2) ∧
    (∀ (σ : Type) (edges : σ → σ → Prop)
        (nextFn : (s : σ) → Transition σ edges s) (n : Nat) (s : σ),
      List.Chain' edges (engineChain σ edges nextFn n s)) := by
  constructor
  · intro σ edges cur s2 t h
    cases t with
    | Next holder =>
      simp only [Transition.successor, Option.some.injEq] at h
      exact h ▸ holder.declared
    | Complete ok => simp [Transition.successor] at h
  · intro σ edges nextFn n
    induction n with
    | zero => intro s; simp [engineChain]
    | succ m ih =>
      intro s
      cases hn : nextFn s with
      | Complete ok => simp [engineChain, hn]
      | Next holder =>
        have hh : (engineChain σ edges nextFn m holder.state).head?
            = some holder.state := by
          cases m <;> simp [engineChain]
        simp only [engineChain, hn]
        refine List.chain'_cons'.mpr ⟨?_, ih holder.state⟩
        intro b hb
        rw [hh] at hb
        simp only [Option.mem_def, Option.some.injEq] at hb
        exact hb ▸ holder.declared

/-- Witness for C1 at a concrete instance: states are naturals, the declared
edges are exactly the increments, and `Transition.next 0 1` yields a
transition whose successor certifies the declared edge `(0, 1)`. -/
theorem c1_next_requires_declared_edge_witness : (1 : Nat) = 0 + 1 :=
  c1_next_requires_declared_edge.1 Nat (fun a b => b = a + 1) 0 1
    (Transition.next 0 1 (by decide)) rfl

/-- C2: with the registration hook succeeding, if the deleted flag fires while
the `InitialState` run is still pending (`deletedDuringRun = true`), the
initial run is cancelled (`runInitial false`), a `DeletedState` run is
executed to completion, and that run precedes the first cleanup step
(`waitDeleted`); if the initial run completes first
(`deletedDuringRun = false`), no `DeletedState` run ever starts. -/
theorem c2_deleted_signal_preempts_initial_run :
    ∀ (deregOk : Bool) (dres : DeleteRes),
      (TStep.runInitial false ∈ run_object_task true true deregOk dres ∧
       TStep.runDeleted ∈ run_object_task true true deregOk dres ∧
       TStep.runInitial true ∉ run_object_task true true deregOk dres ∧
       (run_object_task true true deregOk dres).indexOf TStep.runDeleted
          < (run_object_task true true deregOk dres).indexOf TStep.waitDeleted) ∧
      (TStep.runDeleted ∉ run_object_task true false deregOk dres ∧
       TStep.runInitial false ∉ run_object_task true false deregOk dres ∧
       TStep.runInitial true ∈ run_object_task true false deregOk dres) := by
  intro deregOk dres
  cases deregOk <;> cases dres <;> decide

/-- Witness for C2 at concrete hook and delete outcomes. -/
theorem c2_deleted_signal_preempts_initial_run_witness :
    TStep.runDeleted ∈ run_object_task true true true DeleteRes.ok ∧
    TStep.runDeleted ∉ run_object_task true false true DeleteRes.ok :=
  ⟨(c2_deleted_signal_preempts_initial_run true DeleteRes.ok).1.2.1,
   (c2_deleted_signal_preempts_initial_run true DeleteRes.ok).2.1⟩

/-- C3: every supervisor whose state-machine phase ends (registration
succeeded, so the `tokio::select!` completed) performs, exactly once each and
in this order: wait for the deleted flag, acquire the exclusive shared-state
write lock, `async_drop`, release the lock, `deregistration_hook`, an API
delete with `grace_period_seconds = 0` (every API delete in the trace has
grace period 0), and a final wait for the deleted-confirmed flag, which is the
last step before exit. -/
theorem c3_cleanup_steps_once_in_order :
    ∀ (ddr deregOk : Bool) (dres : DeleteRes),
      (run_object_task true ddr deregOk dres).count TStep.waitDeleted = 1 ∧
      (run_object_task true ddr deregOk dres).count TStep.acquireSharedWrite = 1 ∧
      (run_object_task true ddr deregOk dres).count TStep.asyncDrop = 1 ∧
      (run_object_task true ddr deregOk dres).count TStep.releaseSharedWrite = 1 ∧
      (run_object_task true ddr deregOk dres).count
          (TStep.deregistrationHook deregOk) = 1 ∧
      (run_object_task true ddr deregOk dres).count (TStep.apiDelete 0 dres) = 1 ∧
      (run_object_task true ddr deregOk dres).count TStep.waitDeletedConfirmed = 1 ∧
      (run_object_task true ddr deregOk dres).all (fun s => match s with
        | TStep.apiDelete g _ => g == 0
        | _ => true) = true ∧
      (run_object_task true ddr deregOk dres).indexOf TStep.waitDeleted
        < (run_object_task true ddr deregOk dres).indexOf TStep.acquireSharedWrite ∧
      (run_object_task true ddr deregOk dres).indexOf TStep.acquireSharedWrite
        < (run_object_task true ddr deregOk dres).indexOf TStep.asyncDrop ∧
      (run_object_task true ddr deregOk dres).indexOf TStep.asyncDrop
        < (run_object_task true ddr deregOk dres).indexOf TStep.releaseSharedWrite ∧
      (run_object_task true ddr deregOk dres).indexOf TStep.releaseSharedWrite
        < (run_object_task true ddr deregOk dres).indexOf
            (TStep.deregistrationHook deregOk) ∧
      (run_object_task true ddr deregOk dres).indexOf
          (TStep.deregistrationHook deregOk)
        < (run_object_task true ddr deregOk dres).indexOf (TStep.apiDelete 0 dres) ∧
      (run_object_task true ddr deregOk dres).indexOf (TStep.apiDelete 0 dres)
        < (run_object_task true ddr deregOk dres).indexOf TStep.waitDeletedConfirmed ∧
      (run_object_task true ddr deregOk dres).getLast?
        = some TStep.waitDeletedConfirmed := by
  intro ddr deregOk dres
  cases ddr <;> cases deregOk <;> cases dres <;> decide

/-- C9: if the registration hook fails, the supervisor performs nothing beyond
the hook call itself: the state-machine engine never starts, and no
`async_drop`, no deregistration hook, and no API delete happen. -/
theorem c9_registration_error_aborts_supervisor :
    ∀ (ddr deregOk : Bool) (dres : DeleteRes),
      run_object_task false ddr deregOk dres = [TStep.registrationHook] ∧
      TStep.runInitial true ∉ run_object_task false ddr deregOk dres ∧
      TStep.runInitial false ∉ run_object_task false ddr deregOk dres ∧
      TStep.runDeleted ∉ run_object_task false ddr deregOk dres ∧
      TStep.asyncDrop ∉ run_object_task false ddr deregOk dres ∧
      (∀ ok2 : Bool,
        TStep.deregistrationHook ok2 ∉ run_object_task false ddr deregOk dres) ∧
      (∀ (g : Nat) (r : DeleteRes),
        TStep.apiDelete g r ∉ run_object_task false ddr deregOk dres) := by
  intro ddr deregOk dres
  have h : run_object_task false ddr deregOk dres = [TStep.registrationHook] := by
    cases ddr <;> cases deregOk <;> cases dres <;> rfl
  refine ⟨h, ?_, ?_, ?_, ?_, ?_, ?_⟩ <;> simp [h]

/-- Witness for C9: at concrete race and hook outcomes, the failed-registration
supervisor trace is just the hook call. -/
theorem c9_registration_error_aborts_supervisor_witness :
    run_object_task false true true DeleteRes.ok = [TStep.registrationHook] :=
  (c9_registration_error_aborts_supervisor true true DeleteRes.ok).1

/-- C4: dispatching a `Deleted` event for key `k` removes `k`'s sender from the
handler table strictly before sending the final `Deleted` event over the
removed sender; afterwards the table has no entry for `k`, so a later
`Applied` event for `k` takes the no-handler branch and starts a fresh
supervisor (its trace is a channel creation plus table insert, with no send to
the old sender). -/
theorem c4_deleted_removes_handler_before_send (env : Env) (st : RtState)
    (k : ObjectKey) (o : KObject) (s : Nat) (hk : objectKey o = k)
    (hs : lookupH st.handlers k = some s) (hio : env.initOk o = true) :
    (dispatch env st (ObjectEvent.deleted k)).trace
        = [Action.removeHandler k, Action.sendDeleted s k] ∧
    lookupH (dispatch env st (ObjectEvent.deleted k)).state.handlers k = none ∧
    (dispatch env (dispatch env st (ObjectEvent.deleted k)).state
        (ObjectEvent.applied o)).trace
      = [Action.startObject k
           (dispatch env st (ObjectEvent.deleted k)).state.nextId
           perObjectChannelCapacity,
         Action.insertHandler k
           (dispatch env st (ObjectEvent.deleted k)).state.nextId] := by
  have h1 : dispatch env st (ObjectEvent.deleted k)
      = ⟨⟨eraseH st.handlers k, st.nextId⟩,
         [Action.removeHandler k, Action.sendDeleted s k], env.senderOpen s⟩ := by
    simp [dispatch, hs]
  have h2 : lookupH (eraseH st.handlers k) k = none :=
    lookupH_eraseH_self st.handlers k
  rw [h1]
  refine ⟨rfl, h2, ?_⟩
  simp [dispatch, hk, h2, start_object, hio]

/-- Witness for C4 on a one-entry handler table: the `Deleted` trace is the
removal followed by the send over the removed sender. -/
theorem c4_deleted_removes_handler_before_send_witness :
    (dispatch ⟨fun _ => true, fun _ => true⟩ ⟨[(⟨none, "a"⟩, 5)], 6⟩
        (ObjectEvent.deleted ⟨none, "a"⟩)).trace
      = [Action.removeHandler ⟨none, "a"⟩, Action.sendDeleted 5 ⟨none, "a"⟩] :=
  (c4_deleted_removes_handler_before_send ⟨fun _ => true, fun _ => true⟩
    ⟨[(⟨none, "a"⟩, 5)], 6⟩ ⟨none, "a"⟩ ⟨none, "a", 0⟩ 5 rfl (by decide) rfl).1

/-- C6: while the shutdown signal is set, `handle_event` drops every top-level
`Applied` event with a warning, leaving the handler table untouched, while
`Deleted` and `Restarted` events are processed identically for every signal
state (set, unset, or no signal registered); an unregistered signal and an
unset signal treat `Applied` identically as well. -/
theorem c6_shutdown_gate_drops_only_applied (env : Env) (st : RtState)
    (o : KObject) (objs : List KObject) (sig sig' : Option Bool) :
    handle_event env (some true) st (WatchEvent.applied o)
        = (st, [Action.dropApplied (objectKey o)]) ∧
    handle_event env sig st (WatchEvent.deleted o)
        = handle_event env sig' st (WatchEvent.deleted o) ∧
    handle_event env sig st (WatchEvent.restarted objs)
        = handle_event env sig' st (WatchEvent.restarted objs) ∧
    handle_event env none st (WatchEvent.applied o)
        = handle_event env (some false) st (WatchEvent.applied o) := by
  refine ⟨by simp [handle_event], rfl, rfl, by simp [handle_event]⟩

/-- C7 counterexample: with a single tracked key whose per-object channel is
closed, dispatching an `Applied` event fails the send, yet the handler is NOT
removed from the table — contradicting the claim that a failed send removes
the dead handler so the next event creates a fresh one. -/
theorem c7_counterexample_send_failure_keeps_handler :
    lookupH (RtState.mk [(⟨none, "a"⟩, 0)] 1).handlers ⟨none, "a"⟩ = some 0 ∧
    (Env.mk (fun _ => false) (fun _ => true)).senderOpen 0 = false ∧
    ¬ lookupH
        (dispatch (Env.mk (fun _ => false) (fun _ => true))
          (RtState.mk [(⟨none, "a"⟩, 0)] 1)
          (ObjectEvent.applied ⟨none, "a", 0⟩)).state.handlers ⟨none, "a"⟩
      = none := by
  decide

/-- C7 amended: when sending an `Applied` event over a tracked key's closed
channel fails, the dispatcher only logs the failed send and returns `Ok`; the
dead handler stays in the table (the state is unchanged), so the next event
for that key is sent to the same handler rather than creating a fresh one. -/
theorem c7_send_failure_logged_handler_kept (env : Env) (st : RtState)
    (o : KObject) (s : Nat) (hs : lookupH st.handlers (objectKey o) = some s)
    (hc : env.senderOpen s = false) :
    dispatch env st (ObjectEvent.applied o)
        = ⟨st, [Action.sendAppliedFailed s o], true⟩ ∧
    lookupH (dispatch env st (ObjectEvent.applied o)).state.handlers (objectKey o)
        = some s := by
  have h : dispatch env st (ObjectEvent.applied o)
      = ⟨st, [Action.sendAppliedFailed s o], true⟩ := by
    simp [dispatch, hs, hc]
  exact ⟨h, by rw [h]; exact hs⟩

/-- Witness for the amended C7 at the counterexample's inputs. -/
theorem c7_send_failure_logged_handler_kept_witness :
    dispatch (Env.mk (fun _ => false) (fun _ => true))
        (RtState.mk [(⟨none, "a"⟩, 0)] 1) (ObjectEvent.applied ⟨none, "a", 0⟩)
      = ⟨RtState.mk [(⟨none, "a"⟩, 0)] 1,
         [Action.sendAppliedFailed 0 ⟨none, "a", 0⟩], true⟩ :=
  (c7_send_failure_logged_handler_kept (Env.mk (fun _ => false) (fun _ => true))
    (RtState.mk [(⟨none, "a"⟩, 0)] 1) ⟨none, "a", 0⟩ 0 (by decide) rfl).1

/-- C8 counterexample: the per-object channel created by `start_object` always
has capacity 128 — not 32, and not the builder's `with_buffer` value: the
default builder buffer is 32 and `with_buffer 7` sets 7, yet a fresh
supervisor's channel (as recorded by its `startObject` action) has
capacity 128. -/
theorem c8_counterexample_capacity_is_128 :
    perObjectChannelCapacity = 128 ∧
    ControllerBuilder.new.buffer = 32 ∧
    ¬ perObjectChannelCapacity = ControllerBuilder.new.buffer ∧
    (ControllerBuilder.new.with_buffer 7).buffer = 7 ∧
    ¬ perObjectChannelCapacity = (ControllerBuilder.new.with_buffer 7).buffer ∧
    (dispatch (Env.mk (fun _ => true) (fun _ => true)) (RtState.mk [] 0)
        (ObjectEvent.applied ⟨none, "a", 0⟩)).trace
      = [Action.startObject ⟨none, "a"⟩ 0 128,
         Action.insertHandler ⟨none, "a"⟩ 0] := by
  decide

/-- C8 amended: every per-object channel created by any dispatch has the fixed
capacity `perObjectChannelCapacity = 128`, independent of the controller
builder; `with_buffer(n)` (default 32) configures the builder's
watcher-to-runtime channel buffer instead. -/
theorem c8_per_object_capacity_fixed_128 :
    ∀ (env : Env) (st : RtState) (e : ObjectEvent) (n : Nat),
      (dispatch env st e).trace.all startCapacityIs128 = true ∧
      perObjectChannelCapacity = 128 ∧
      ControllerBuilder.new.buffer = 32 ∧
      (∀ b : ControllerBuilder, (b.with_buffer n).buffer = n) := by
  intro env st e n
  refine ⟨?_, rfl, rfl, fun b => rfl⟩
  cases e with
  | applied o =>
    cases hl : lookupH st.handlers (objectKey o) with
    | some s =>
      by_cases ho : env.senderOpen s <;>
        simp [dispatch, hl, ho, startCapacityIs128]
    | none =>
      by_cases hio : env.initOk o <;>
        simp [dispatch, hl, start_object, hio, startCapacityIs128]
  | deleted k =>
    cases hl : lookupH st.handlers k with
    | some s => simp [dispatch, hl, startCapacityIs128]
    | none => simp [dispatch, hl]

/-- C10: when `initialize_object_state` fails for an untracked key, `dispatch`
returns the error with the handler table unchanged — no sender inserted, no
tasks spawned, only the propagated initialization error in the trace — and
`handle_event` absorbs the error (it returns normally with the same state); a
later `Applied` for the same key under an environment whose initialization
succeeds starts the supervisor from scratch and inserts the fresh sender. -/
theorem c10_init_error_no_insert_and_retry (env env2 : Env) (st : RtState)
    (o : KObject) (h1 : lookupH st.handlers (objectKey o) = none)
    (h2 : env.initOk o = false) (h3 : env2.initOk o = true) :
    dispatch env st (ObjectEvent.applied o)
        = ⟨st, [Action.initError (objectKey o)], false⟩ ∧
    handle_event env none st (WatchEvent.applied o)
        = (st, [Action.initError (objectKey o)]) ∧
    (dispatch env2 st (ObjectEvent.applied o)).trace
        = [Action.startObject (objectKey o) st.nextId perObjectChannelCapacity,
           Action.insertHandler (objectKey o) st.nextId] ∧
    lookupH (dispatch env2 st (ObjectEvent.applied o)).state.handlers (objectKey o)
        = some st.nextId := by
  have hd : dispatch env st (ObjectEvent.applied o)
      = ⟨st, [Action.initError (objectKey o)], false⟩ := by
    simp [dispatch, h1, start_object, h2]
  refine ⟨hd, ?_, ?_, ?_⟩
  · simp [handle_event, hd]
  · simp [dispatch, h1, start_object, h3]
  · simp [dispatch, h1, start_object, h3, lookupH]

/-- Witness for C10 on an empty handler table with a failing initializer. -/
theorem c10_init_error_no_insert_and_retry_witness :
    dispatch (Env.mk (fun _ => true) (fun _ => false)) (RtState.mk [] 0)
        (ObjectEvent.applied ⟨none, "a", 0⟩)
      = ⟨RtState.mk [] 0, [Action.initError ⟨none, "a"⟩], false⟩ :=
  (c10_init_error_no_insert_and_retry (Env.mk (fun _ => true) (fun _ => false))
    (Env.mk (fun _ => true) (fun _ => true)) (RtState.mk [] 0)
    ⟨none, "a", 0⟩ rfl rfl rfl).1

/-- C5 counterexample: with the table tracking keys `c` and `a` and incoming
objects `a`, `b`, key `c` is stale; but `c`'s per-object channel is closed, so
its synthetic `Deleted` dispatch returns an error which `resync` propagates
with `?` — no `Applied` is ever dispatched (neither `a` nor `b` receives one),
falsifying the claim that every incoming object gets exactly one `Applied`
dispatch. -/
theorem c5_counterexample_resync_error_aborts :
    resyncContract (Env.mk (fun _ => false) (fun _ => true))
        (RtState.mk [(⟨none, "c"⟩, 0), (⟨none, "a"⟩, 1)] 2)
        [⟨none, "a", 0⟩, ⟨none, "b", 0⟩] = false ∧
    staleKeys (RtState.mk [(⟨none, "c"⟩, 0), (⟨none, "a"⟩, 1)] 2)
        [⟨none, "a", 0⟩, ⟨none, "b", 0⟩] = [⟨none, "c"⟩] ∧
    markers (resync (Env.mk (fun _ => false) (fun _ => true))
        (RtState.mk [(⟨none, "c"⟩, 0), (⟨none, "a"⟩, 1)] 2)
        [⟨none, "a", 0⟩, ⟨none, "b", 0⟩]).trace
      = [ObjectEvent.deleted ⟨none, "c"⟩] := by
  decide

/-- C5 amended: provided every per-object channel send and every object-state
initialization performed during the resync succeeds (on the first failure,
`resync` propagates the error and performs no further dispatches), and given
that the handler table's keys are distinct (as for a `HashMap`) and the
incoming objects are distinct, resync dispatches exactly one synthetic
`Deleted` for each tracked key absent from the incoming list, then exactly one
`Applied` for each incoming object, with every `Deleted` dispatch preceding
every `Applied` dispatch. -/
theorem c5_resync_deletes_then_applies (env : Env) (st : RtState)
    (objects : List KObject) (hs : ∀ s, env.senderOpen s = true)
    (hi : ∀ o, env.initOk o = true)
    (hnodupH : (st.handlers.map Prod.fst).Nodup) (hnodupO : objects.Nodup) :
    resyncContract env st objects = true := by
  have hm := resync_markers env hs hi st objects
  have hstale : (staleKeys st objects).Nodup :=
    hnodupH.filter (fun k => ¬ k ∈ currentKeys objects)
  have hinjD : Function.Injective ObjectEvent.deleted :=
    fun a b h => ObjectEvent.deleted.inj h
  have hinjA : Function.Injective ObjectEvent.applied :=
    fun a b h => ObjectEvent.applied.inj h
  simp only [resyncContract, hm, Bool.and_eq_true, List.all_eq_true]
  refine ⟨⟨?_, ?_⟩, ?_⟩
  · intro k hk
    have h0 : (objects.map ObjectEvent.applied).count (ObjectEvent.deleted k) = 0 := by
      rw [List.count_eq_zero]
      simp
    have h1 : ((staleKeys st objects).map ObjectEvent.deleted).count
        (ObjectEvent.deleted k) = 1 := by
      rw [List.count_map_of_injective _ _ hinjD]
      exact List.count_eq_one_of_mem hstale hk
    simp [List.count_append, h0, h1]
  · intro o ho
    have h0 : ((staleKeys st objects).map ObjectEvent.deleted).count
        (ObjectEvent.applied o) = 0 := by
      rw [List.count_eq_zero]
      simp
    have h1 : (objects.map ObjectEvent.applied).count (ObjectEvent.applied o) = 1 := by
      rw [List.count_map_of_injective _ _ hinjA]
      exact List.count_eq_one_of_mem hnodupO ho
    simp [List.count_append, h0, h1]
  · exact delsBeforeApps_map (staleKeys st objects) objects

/-- Witness for the amended C5: the resync of the counterexample's table and
incoming objects, now with all channels open and all initializations
succeeding, satisfies the full resync contract. -/
theorem c5_resync_deletes_then_applies_witness :
    resyncContract (Env.mk (fun _ => true) (fun _ => true))
        (RtState.mk [(⟨none, "c"⟩, 0), (⟨none, "a"⟩, 1)] 2)
        [⟨none, "a", 0⟩, ⟨none, "b", 0⟩] = true :=
  c5_resync_deletes_then_applies (Env.mk (fun _ => true) (fun _ => true))
    (RtState.mk [(⟨none, "c"⟩, 0), (⟨none, "a"⟩, 1)] 2)
    [⟨none, "a", 0⟩, ⟨none, "b", 0⟩]
    (fun _ => rfl) (fun _ => rfl) (by decide) (by decide)
